import Mathlib

/-!
A shallow embedding of `src/gst/rtpmanager/gstrtpjitterbuffer.c` (the RTP
jitter buffer element) together with the spec-side sequence arithmetic, and
theorems settling the frozen claims about it.

Machine integers are modelled as `Nat`/`Int` with explicit reductions
modulo `2^16`, `2^32` and `2^64` where the C code's fixed-width arithmetic
can wrap.  C sentinel values (`-1` stored in unsigned fields) are kept as
their unsigned representations (`4294967295` for a `guint32`,
`18446744073709551615` for a `guint64`), mirroring the source's comparisons
against `-1`.
-/

namespace RtpJitterBuffer

/-- Flow return codes (`GstFlowReturn`) used by the element:
`ok` = `GST_FLOW_OK`, `wrongState` = `GST_FLOW_WRONG_STATE` (flushing),
`unexpected` = `GST_FLOW_UNEXPECTED` (EOS), `notNegotiated` =
`GST_FLOW_NOT_NEGOTIATED`, `error_` = `GST_FLOW_ERROR`. -/
inductive FlowReturn where
  | ok
  | wrongState
  | unexpected
  | notNegotiated
  | error_
  deriving DecidableEq, Repr

/-- An RTP packet as the element sees it after header validation:
`seq` is the 16-bit sequence number (`gst_rtp_buffer_get_seq`),
`rtp_ts` the 32-bit RTP timestamp (`gst_rtp_buffer_get_timestamp`),
`pt` the payload type. -/
structure RtpPacket where
  seq : Nat
  rtp_ts : Nat
  pt : Nat
  deriving DecidableEq, Repr

/-- `priv_compare_rtp_seq_lt` from gstrtpjitterbuffer.c, lines 651-661:
both `guint16` arguments are promoted to `int`; if `abs (b - a) > (1 << 15)`
the function returns `a - b`, otherwise `b - a`. -/
def priv_compare_rtp_seq_lt (a b : Nat) : Int :=
  if ((b : Int) - (a : Int)).natAbs > 32768 then (a : Int) - (b : Int)
  else (b : Int) - (a : Int)

/-- The spec's `seq_diff` (spec section 4.1): compute `(b - a)` reduced
modulo `2^16` and sign-extend from 16 bits, i.e. the wrap-aware number of
steps from `a` to `b` as a signed value in `[-2^15, 2^15)`. -/
def seq_diff (a b : Nat) : Int :=
  let m : Int := ((b : Int) - (a : Int)) % 65536
  if m < 32768 then m else m - 65536

/-- Modelled from the spec: the ordered packet store of section 4.2
(`rtp_jitter_buffer_insert` lives in rtpjitterbuffer.c, which is not under
src/).  `insert` returns `none` if a packet with the same `seq` already
exists, otherwise the store with the packet placed in wrap-aware sorted
position (entries compared by the sign of `seq_diff`). -/
def storeInsert : List RtpPacket → RtpPacket → Option (List RtpPacket)
  | [], p => some [p]
  | q :: rest, p =>
    if p.seq = q.seq then none
    else if seq_diff p.seq q.seq > 0 then some (p :: q :: rest)
    else match storeInsert rest p with
      | none => none
      | some rest2 => some (q :: rest2)

/-- Modelled from the spec: `ts_span` of the store (section 4.2;
`rtp_jitter_buffer_get_ts_diff` lives in rtpjitterbuffer.c, not under src/):
the RTP-timestamp distance between the newest and the oldest entry using
32-bit modular subtraction; `0` on the empty store. -/
def storeTsSpan : List RtpPacket → Nat
  | [] => 0
  | p :: rest =>
    ((rest.getLastD p).rtp_ts % 4294967296 + 4294967296 - p.rtp_ts % 4294967296) % 4294967296

/-- Modelled from the spec: `gst_util_uint64_scale_int` (external GStreamer
utility): full-precision `val * num / denom` with truncating division. -/
def gst_util_uint64_scale_int (val num denom : Nat) : Nat :=
  val * num / denom

/-- Conversion of an unsigned 64-bit value to a C `gint` (32-bit signed):
take the low 32 bits and reinterpret as two's complement. -/
def toInt32 (n : Nat) : Int :=
  if n % 4294967296 < 2147483648 then ((n % 4294967296 : Nat) : Int)
  else ((n % 4294967296 : Nat) : Int) - 4294967296

/-- The `ts_offset_rtp` computation of gst_rtp_jitter_buffer_loop, lines
1111-1121: for a positive offset `gst_util_uint64_scale_int (ts_offset,
clock_rate, GST_SECOND)`, for a negative offset the negated scaling of the
magnitude, else `0`; the `guint64` result is stored into a `gint`
(low 32 bits, two's complement). -/
def ts_offset_rtp_of (off rate : Int) : Int :=
  if off > 0 then
    toInt32 (gst_util_uint64_scale_int off.toNat rate.toNat 1000000000 % 18446744073709551616)
  else if off < 0 then
    toInt32 ((18446744073709551616 -
      gst_util_uint64_scale_int (-off).toNat rate.toNat 1000000000 % 18446744073709551616) %
      18446744073709551616)
  else 0

/-- Modelled from the spec: `gst_rtp_buffer_ext_timestamp` (external
GStreamer base-library utility; spec section 4.3 step 1): extend a 32-bit
RTP timestamp to 64 bits, picking the value congruent to `ts` mod `2^32`
whose distance to the previous extended timestamp is at most `2^31`;
the sentinel `2^64 - 1` means "no previous timestamp". -/
def ext_timestamp (prev ts : Nat) : Nat :=
  if prev = 18446744073709551615 then ts
  else
    let result := ts + (prev / 4294967296) * 4294967296
    let diff := if result < prev then prev - result else result - prev
    if diff > 2147483647 then
      if result < prev then (result + 4294967296) % 18446744073709551616
      else (result + 18446744073709551616 - 4294967296) % 18446744073709551616
    else result

/-- Model of the `GstSegment` held by the element: either the default TIME
segment produced by `gst_segment_init (&priv->segment, GST_FORMAT_TIME)`,
or a configured segment from a newsegment event. -/
inductive SegmentModel where
  | defaultTime
  | configured (rate arate : Int) (start stop time : Int)
  deriving DecidableEq, Repr

/-- `GstRtpJitterBufferPrivate` (gstrtpjitterbuffer.c, lines 131-173),
restricted to the fields the modelled operations read or write.  `clock_id`
models `priv->clock_id != NULL`; unsigned fields holding `-1` sentinels
keep the C representation (`4294967295`, `18446744073709551615`). -/
structure JBState where
  latency_ms : Nat
  drop_on_latency : Bool
  ts_offset : Int
  prev_ts_offset : Int
  last_popped_seqnum : Nat
  next_seqnum : Nat
  eos : Bool
  clock_rate : Int
  clock_base : Int
  exttimestamp : Nat
  srcresult : FlowReturn
  blocked : Bool
  segment : SegmentModel
  clock_id : Bool
  waiting_seqnum : Nat
  peer_latency : Nat
  num_late : Nat
  num_duplicates : Nat
  jbuf : List RtpPacket
  deriving DecidableEq, Repr

/-- The caps fields read by `gst_jitter_buffer_sink_parse_caps`:
`clock-rate` (gint), optional `clock-base` (guint), optional
`seqnum-base` (guint). -/
structure RtpCaps where
  clock_rate : Option Int
  clock_base : Option Nat
  seqnum_base : Option Nat
  deriving DecidableEq, Repr

/-- `gst_jitter_buffer_sink_parse_caps` (lines 432-489): requires a
`clock-rate` field (written into the state before the positivity check);
rejects non-positive rates; stores `clock-base` and `seqnum-base` or their
`-1` sentinels. -/
def gst_jitter_buffer_sink_parse_caps (s : JBState) (c : RtpCaps) : JBState × Bool :=
  match c.clock_rate with
  | none => (s, false)
  | some r =>
    let s := { s with clock_rate := r }
    if r ≤ 0 then (s, false)
    else
      let s := { s with clock_base :=
        match c.clock_base with
        | some v => ((v % 4294967296 : Nat) : Int)
        | none => -1 }
      let s := { s with next_seqnum :=
        match c.seqnum_base with
        | some v => v % 4294967296
        | none => 4294967295 }
      (s, true)

/-- The too-late test of `gst_rtp_jitter_buffer_chain`, lines 823-828:
only applies when `last_popped_seqnum != -1`, and drops only when
`priv_compare_rtp_seq_lt (last_popped_seqnum, seqnum) < 0` (the `guint32`
field is converted to the `guint16` parameter, i.e. reduced mod `2^16`). -/
def tooLateCheck (s : JBState) (seqnum : Nat) : Bool :=
  if s.last_popped_seqnum ≠ 4294967295 then
    decide (priv_compare_rtp_seq_lt (s.last_popped_seqnum % 65536) seqnum < 0)
  else false

/-- The drop-on-latency step of `gst_rtp_jitter_buffer_chain`, lines
830-849: when `latency_ms` is non-zero and `drop_on_latency` is set and the
store's timestamp span has reached `latency_ms * clock_rate / 1000`, pop
the oldest packet and discard it. -/
def chainDrop (s : JBState) : JBState :=
  if s.latency_ms ≠ 0 ∧ s.drop_on_latency = true then
    let latency_ts := gst_util_uint64_scale_int s.latency_ms s.clock_rate.toNat 1000
    if storeTsSpan s.jbuf ≥ latency_ts then { s with jbuf := s.jbuf.tail }
    else s
  else s

/-- The outcome of one `chain` call: the new state, the flow return, and
whether `gst_clock_id_unschedule` was invoked on the pending clock wait. -/
structure ChainResult where
  state : JBState
  ret : FlowReturn
  unscheduled : Bool
  deriving DecidableEq, Repr

/-- `gst_rtp_jitter_buffer_chain` (lines 789-926), after successful header
validation.  `ptmap` models the caps returned by the `request-pt-map`
signal when the clock rate is unresolved (`none` = no caps). -/
def chain (ptmap : Option RtpCaps) (s0 : JBState) (buffer : RtpPacket) : ChainResult :=
  let s := if s0.clock_rate = -1 then
             match ptmap with
             | some caps => (gst_jitter_buffer_sink_parse_caps s0 caps).1
             | none => s0
           else s0
  if s.clock_rate = -1 then ⟨s, FlowReturn.notNegotiated, false⟩
  else
    let seqnum := buffer.seq
    if s.srcresult ≠ FlowReturn.ok then ⟨s, s.srcresult, false⟩
    else if s.eos = true then ⟨s, FlowReturn.unexpected, false⟩
    else if tooLateCheck s seqnum then
      ⟨{ s with num_late := (s.num_late + 1) % 18446744073709551616 }, FlowReturn.ok, false⟩
    else
      let s := chainDrop s
      match storeInsert s.jbuf buffer with
      | none =>
        ⟨{ s with num_duplicates := (s.num_duplicates + 1) % 18446744073709551616 },
          FlowReturn.ok, false⟩
      | some q =>
        let s := { s with jbuf := q }
        ⟨s, FlowReturn.ok, s.clock_id && decide (s.waiting_seqnum > seqnum)⟩

/-- `gst_rtp_jitter_buffer_flush_stop` (lines 533-551). -/
def gst_rtp_jitter_buffer_flush_stop (s : JBState) : JBState :=
  { s with srcresult := FlowReturn.ok,
           segment := SegmentModel.defaultTime,
           last_popped_seqnum := 4294967295,
           next_seqnum := 4294967295,
           clock_rate := -1,
           eos := false,
           exttimestamp := 18446744073709551615 }

/-- Return values of `gst_clock_id_wait` relevant to the loop:
`ok`/`early` mean the deadline elapsed, `unscheduled` means the wait was
cancelled externally (`GST_CLOCK_UNSCHEDULED`). -/
inductive ClockReturn where
  | ok
  | early
  | unscheduled
  deriving DecidableEq, Repr

/-- What one pass of the egress worker body did. -/
inductive LoopOutcome where
  | flushed
  | wouldBlock
  | eosPushed
  | retried
  | pushed (buf : RtpPacket) (discont : Bool)
  deriving DecidableEq, Repr

/-- The `push_buffer` tail of `gst_rtp_jitter_buffer_loop` (lines
1091-1141): gap accounting (`num_late += priv_compare_rtp_seq_lt
(next_seqnum, seqnum)`, DISCONT flag), application of the timestamp offset
(DISCONT on a change only inside the `ts_offset_rtp != 0` block, timestamp
rewritten modulo `2^32`), then `last_popped_seqnum := seqnum` and
`next_seqnum := (seqnum + 1) & 0xffff`.  Returns the new state, the buffer
as pushed downstream, and its DISCONT flag. -/
def pushPath (s0 : JBState) (outbuf0 : RtpPacket) (seqnum : Nat) :
    JBState × RtpPacket × Bool :=
  let sd :=
    if s0.next_seqnum ≠ 4294967295 ∧ s0.next_seqnum ≠ seqnum then
      let dropped := priv_compare_rtp_seq_lt (s0.next_seqnum % 65536) seqnum
      ({ s0 with num_late :=
          (s0.num_late + (dropped % 18446744073709551616).toNat) % 18446744073709551616 },
        true)
    else (s0, false)
  let s := sd.1
  let ts_offset_rtp := ts_offset_rtp_of s.ts_offset s.clock_rate
  let sbd :=
    if ts_offset_rtp ≠ 0 then
      let sd2 :=
        if s.ts_offset ≠ s.prev_ts_offset then
          ({ s with prev_ts_offset := s.ts_offset }, true)
        else (s, sd.2)
      let timestamp := (((outbuf0.rtp_ts : Int) + ts_offset_rtp) % 4294967296).toNat
      (sd2.1, { outbuf0 with rtp_ts := timestamp }, sd2.2)
    else (s, outbuf0, sd.2)
  let s := { sbd.1 with last_popped_seqnum := seqnum,
                        next_seqnum := (seqnum + 1) % 65536 }
  (s, sbd.2.1, sbd.2.2)

/-- One pass of `gst_rtp_jitter_buffer_loop` (lines 935-1187): the flushing
check, the wait-for-data loop (condensed to its exit condition), popping
the head packet, extended-timestamp and clock-base bookkeeping, the
gap/first-packet wait branch (`hasClock` models `GST_ELEMENT_CLOCK != NULL`,
`waitRet` the result of `gst_clock_id_wait`), reinsertion on an
unscheduled wait, and the push path. -/
def loopBody (hasClock : Bool) (waitRet : ClockReturn) (s0 : JBState) :
    JBState × LoopOutcome :=
  if s0.srcresult ≠ FlowReturn.ok then (s0, LoopOutcome.flushed)
  else if s0.blocked then (s0, LoopOutcome.wouldBlock)
  else
    match s0.jbuf with
    | [] =>
      if s0.eos then
        ({ s0 with srcresult := FlowReturn.unexpected }, LoopOutcome.eosPushed)
      else (s0, LoopOutcome.wouldBlock)
    | outbuf :: rest =>
      let s := { s0 with jbuf := rest }
      let seqnum := outbuf.seq
      let ext := ext_timestamp s.exttimestamp outbuf.rtp_ts
      let s := { s with exttimestamp := ext }
      if s.next_seqnum = 4294967295 ∨ s.next_seqnum ≠ seqnum then
        let s := if s.clock_base = -1 then { s with clock_base := (ext : Int) } else s
        if hasClock = false then
          let r := pushPath s outbuf seqnum
          (r.1, LoopOutcome.pushed r.2.1 r.2.2)
        else
          let s := { s with clock_id := true, waiting_seqnum := seqnum }
          let s := { s with clock_id := false, waiting_seqnum := 4294967295 }
          if s.srcresult ≠ FlowReturn.ok then (s, LoopOutcome.flushed)
          else if waitRet = ClockReturn.unscheduled then
            match storeInsert s.jbuf outbuf with
            | none =>
              ({ s with num_duplicates :=
                  (s.num_duplicates + 1) % 18446744073709551616 }, LoopOutcome.retried)
            | some q => ({ s with jbuf := q }, LoopOutcome.retried)
          else
            let r := pushPath s outbuf seqnum
            (r.1, LoopOutcome.pushed r.2.1 r.2.2)
      else
        let r := pushPath s outbuf seqnum
        (r.1, LoopOutcome.pushed r.2.1 r.2.2)

/-- The `GST_QUERY_LATENCY` branch of `gst_rtp_jitter_buffer_query` (lines
1200-1241), given the peer's answer `(min_latency, max_latency)` (both
`GstClockTime`, i.e. `guint64` with `2^64 - 1` as the `-1` / unbounded
sentinel): stores the peer minimum as `peer_latency`, adds
`our_latency = latency_ms * GST_MSECOND` to the minimum, and — when the
maximum is not `-1` — adds `our_latency * GST_MSECOND` to the maximum.
Returns the new state and the composite `(min, max)`. -/
def gst_rtp_jitter_buffer_query_latency (s : JBState) (min_latency max_latency : Nat) :
    JBState × Nat × Nat :=
  let s := { s with peer_latency := min_latency }
  let our_latency := s.latency_ms * 1000000
  let min_latency := (min_latency + our_latency) % 18446744073709551616
  let max_latency :=
    if max_latency ≠ 18446744073709551615 then
      (max_latency + our_latency * 1000000) % 18446744073709551616
    else max_latency
  (s, min_latency, max_latency)

/-- An externally driven event for executing concrete interleavings:
either an ingress `chain` call or one pass of the egress worker. -/
inductive JBOp where
  | push (p : RtpPacket)
  | pop (hasClock : Bool) (ret : ClockReturn)
  deriving DecidableEq, Repr

/-- Run a sequence of operations from a state, collecting the packets the
egress worker pushed downstream, in order. -/
def runOps (s : JBState) : List JBOp → JBState × List RtpPacket
  | [] => (s, [])
  | op :: rest =>
    match op with
    | JBOp.push p =>
      let r := runOps (chain none s p).state rest
      (r.1, r.2)
    | JBOp.pop hc cr =>
      match loopBody hc cr s with
      | (s', LoopOutcome.pushed b _) =>
        let r := runOps s' rest
        (r.1, b :: r.2)
      | (s', _) =>
        let r := runOps s' rest
        (r.1, r.2)

/-- A resolved, idle coordinator state: clock rate 8000, defaults
elsewhere, empty store.  Used as the base of the concrete scenarios. -/
def testState : JBState :=
  { latency_ms := 200, drop_on_latency := false, ts_offset := 0, prev_ts_offset := 0,
    last_popped_seqnum := 4294967295, next_seqnum := 4294967295, eos := false,
    clock_rate := 8000, clock_base := -1, exttimestamp := 18446744073709551615,
    srcresult := FlowReturn.ok, blocked := false, segment := SegmentModel.defaultTime,
    clock_id := false, waiting_seqnum := 4294967295, peer_latency := 0,
    num_late := 0, num_duplicates := 0, jbuf := [] }

/-- A packet with payload type 0. -/
def pk (n ts : Nat) : RtpPacket := ⟨n, ts, 0⟩

lemma chainDrop_clock_id (s : JBState) : (chainDrop s).clock_id = s.clock_id := by
  simp only [chainDrop]; split_ifs <;> rfl

lemma chainDrop_waiting_seqnum (s : JBState) :
    (chainDrop s).waiting_seqnum = s.waiting_seqnum := by
  simp only [chainDrop]; split_ifs <;> rfl

lemma chainDrop_last_popped_seqnum (s : JBState) :
    (chainDrop s).last_popped_seqnum = s.last_popped_seqnum := by
  simp only [chainDrop]; split_ifs <;> rfl

lemma chainDrop_next_seqnum (s : JBState) :
    (chainDrop s).next_seqnum = s.next_seqnum := by
  simp only [chainDrop]; split_ifs <;> rfl

lemma chainDrop_num_late (s : JBState) : (chainDrop s).num_late = s.num_late := by
  simp only [chainDrop]; split_ifs <;> rfl

lemma chainDrop_num_duplicates (s : JBState) :
    (chainDrop s).num_duplicates = s.num_duplicates := by
  simp only [chainDrop]; split_ifs <;> rfl

lemma chainDrop_jbuf (s : JBState) :
    (chainDrop s).jbuf =
      if s.latency_ms ≠ 0 ∧ s.drop_on_latency = true then
        if storeTsSpan s.jbuf ≥
            gst_util_uint64_scale_int s.latency_ms s.clock_rate.toNat 1000 then
          s.jbuf.tail
        else s.jbuf
      else s.jbuf := by
  simp only [chainDrop]; split_ifs <;> rfl

/-- A state whose last released seqnum is 5. -/
def c1cstate : JBState := { testState with last_popped_seqnum := 5 }

/-- Claim C1 counterexample: with `last_popped_seq = 5`, pushing a packet
with `seq = 5` satisfies the claim's condition `seq_diff (last, seq) ≤ 0`
(the equality case), yet the packet IS enqueued into the store and
`late_count` is not incremented — the code drops only on a strict `< 0`. -/
theorem C1_counterexample :
    seq_diff c1cstate.last_popped_seqnum (pk 5 100).seq ≤ 0 ∧
    priv_compare_rtp_seq_lt (c1cstate.last_popped_seqnum % 65536) (pk 5 100).seq ≤ 0 ∧
    (chain none c1cstate (pk 5 100)).ret = FlowReturn.ok ∧
    (chain none c1cstate (pk 5 100)).state.jbuf = [pk 5 100] ∧
    (chain none c1cstate (pk 5 100)).state.num_late = c1cstate.num_late := by decide

/-- Claim C1 (amended): when `last_popped_seq != -1` and the packet's seq
is STRICTLY before it under the wrap-aware order
(`priv_compare_rtp_seq_lt (last_popped_seq, seq) < 0` — the equality case
`seq == last_popped_seq` passes the check and is enqueued), the packet is
never enqueued: `late_count` is incremented, the packet is dropped, push
returns OK and the store with all other state is unchanged. -/
theorem C1_amended (s : JBState) (p : RtpPacket)
    (h1 : s.clock_rate ≠ -1) (h2 : s.srcresult = FlowReturn.ok) (h3 : s.eos = false)
    (h4 : s.last_popped_seqnum ≠ 4294967295)
    (h5 : priv_compare_rtp_seq_lt (s.last_popped_seqnum % 65536) p.seq < 0) :
    chain none s p =
      ⟨{ s with num_late := (s.num_late + 1) % 18446744073709551616 },
        FlowReturn.ok, false⟩ := by
  have ht : tooLateCheck s p.seq = true := by
    simp [tooLateCheck, h4, h5]
  simp [chain, h1, h2, h3, ht]

/-- Concrete input for the C1 witness: last released 10, ingress seq 7. -/
def c1wstate : JBState := { testState with last_popped_seqnum := 10 }

/-- Witness for C1_amended at `last_popped_seq = 10`, `seq = 7`. -/
theorem C1_witness :
    priv_compare_rtp_seq_lt (c1wstate.last_popped_seqnum % 65536) (pk 7 100).seq < 0 ∧
    chain none c1wstate (pk 7 100) =
      ⟨{ c1wstate with num_late := (c1wstate.num_late + 1) % 18446744073709551616 },
        FlowReturn.ok, false⟩ :=
  ⟨by decide,
   C1_amended c1wstate (pk 7 100) (by decide) rfl rfl (by decide) (by decide)⟩

/-- A state with an active clock wait for seqnum 0. -/
def c2cstate : JBState := { testState with clock_id := true, waiting_seqnum := 0 }

/-- Claim C2 counterexample: a pending wait exists for `w = 0` and the
ingress packet has `seq = 65535`, which is wrap-aware-earlier
(`seq_diff (seq, w) = 1 > 0`); the packet is inserted, yet the wait is NOT
cancelled, because the code compares `waiting_seqnum > seqnum` as plain
unsigned integers. -/
theorem C2_counterexample :
    seq_diff (pk 65535 100).seq c2cstate.waiting_seqnum > 0 ∧
    c2cstate.clock_id = true ∧
    (chain none c2cstate (pk 65535 100)).ret = FlowReturn.ok ∧
    (chain none c2cstate (pk 65535 100)).state.jbuf = [pk 65535 100] ∧
    (chain none c2cstate (pk 65535 100)).unscheduled = false := by decide

/-- Claim C2 (amended): for every push that inserts its packet, the pending
clock wait is cancelled if and only if a wait is active and the new
packet's seq is strictly less than the waited seqnum under PLAIN unsigned
comparison (`waiting_seqnum > seqnum`), not under the wrap-aware order;
packets straddling the 16-bit wrap boundary (w = 0, seq = 65535) do not
cancel. -/
theorem C2_amended (s : JBState) (p : RtpPacket) (q : List RtpPacket)
    (h1 : s.clock_rate ≠ -1) (h2 : s.srcresult = FlowReturn.ok) (h3 : s.eos = false)
    (h4 : tooLateCheck s p.seq = false)
    (h5 : storeInsert (chainDrop s).jbuf p = some q) :
    (chain none s p).unscheduled =
      (s.clock_id && decide (s.waiting_seqnum > p.seq)) := by
  simp [chain, h1, h2, h3, h4, h5, chainDrop_clock_id, chainDrop_waiting_seqnum]

/-- Concrete input for the C2 witness: waiting for 100, ingress seq 50. -/
def c2wstate : JBState := { testState with clock_id := true, waiting_seqnum := 100 }

/-- Witness for C2_amended: waiting_seqnum 100, seq 50 — cancellation. -/
theorem C2_witness :
    storeInsert (chainDrop c2wstate).jbuf (pk 50 0) = some [pk 50 0] ∧
    (chain none c2wstate (pk 50 0)).unscheduled =
      (c2wstate.clock_id && decide (c2wstate.waiting_seqnum > (pk 50 0).seq)) :=
  ⟨by decide,
   C2_amended c2wstate (pk 50 0) [pk 50 0] (by decide) rfl rfl (by decide) (by decide)⟩

/-- A drop-on-latency state at threshold 1 RTP tick with one resident
packet. -/
def c4cstate : JBState :=
  { testState with latency_ms := 1, drop_on_latency := true, clock_rate := 1000,
                   jbuf := [pk 1 0] }

/-- Claim C4 counterexample: `drop_on_latency = true`, `latency_ms = 1`,
clock rate 1000 (threshold = 1 RTP tick).  The push of seq 2 at rtp_ts 100
is accepted and enqueued (pre-insert span 0 evicts nothing), and
immediately afterwards the store span is 100, NOT below the threshold. -/
theorem C4_counterexample :
    c4cstate.drop_on_latency = true ∧ c4cstate.latency_ms ≠ 0 ∧
    (chain none c4cstate (pk 2 100)).ret = FlowReturn.ok ∧
    (chain none c4cstate (pk 2 100)).state.jbuf = [pk 1 0, pk 2 100] ∧
    ¬ (storeTsSpan (chain none c4cstate (pk 2 100)).state.jbuf <
        gst_util_uint64_scale_int c4cstate.latency_ms c4cstate.clock_rate.toNat 1000) := by
  decide

/-- Claim C4 (amended): with `drop_on_latency = true` and `latency_ms > 0`
and a resolved clock rate, every push that accepts and enqueues its packet
first evicts exactly the store head — and only when the PRE-insert span has
reached `latency_ms * clock_rate / 1000` — and then inserts the packet into
that store; the post-insert bound `ts_span < latency_ms * clock_rate / 1000`
does not hold in general. -/
theorem C4_amended (s : JBState) (p : RtpPacket) (q : List RtpPacket)
    (h1 : s.clock_rate ≠ -1) (h2 : s.srcresult = FlowReturn.ok) (h3 : s.eos = false)
    (h4 : tooLateCheck s p.seq = false)
    (h5 : s.latency_ms ≠ 0) (h6 : s.drop_on_latency = true)
    (h7 : storeInsert
        (if storeTsSpan s.jbuf ≥
            gst_util_uint64_scale_int s.latency_ms s.clock_rate.toNat 1000 then
          s.jbuf.tail
        else s.jbuf) p = some q) :
    (chain none s p).ret = FlowReturn.ok ∧ (chain none s p).state.jbuf = q := by
  have hd : (chainDrop s).jbuf =
      (if storeTsSpan s.jbuf ≥
          gst_util_uint64_scale_int s.latency_ms s.clock_rate.toNat 1000 then
        s.jbuf.tail
      else s.jbuf) := by
    rw [chainDrop_jbuf]; simp [h5, h6]
  simp [chain, h1, h2, h3, h4, hd, h7]

/-- Concrete input for the C4 witness: span 300 at threshold 1 forces the
head eviction, then seq 3 is inserted. -/
def c4wstate : JBState :=
  { testState with latency_ms := 1, drop_on_latency := true, clock_rate := 1000,
                   jbuf := [pk 1 0, pk 2 300] }

/-- Witness for C4_amended: the head (seq 1) is evicted, seq 3 inserted. -/
theorem C4_witness :
    storeInsert
        (if storeTsSpan c4wstate.jbuf ≥
            gst_util_uint64_scale_int c4wstate.latency_ms c4wstate.clock_rate.toNat 1000 then
          c4wstate.jbuf.tail
        else c4wstate.jbuf) (pk 3 600) = some [pk 2 300, pk 3 600] ∧
    (chain none c4wstate (pk 3 600)).ret = FlowReturn.ok ∧
    (chain none c4wstate (pk 3 600)).state.jbuf = [pk 2 300, pk 3 600] :=
  ⟨by decide,
   (C4_amended c4wstate (pk 3 600) [pk 2 300, pk 3 600] (by decide) rfl rfl
      (by decide) (by decide) (by decide) (by decide)).1,
   (C4_amended c4wstate (pk 3 600) [pk 2 300, pk 3 600] (by decide) rfl rfl
      (by decide) (by decide) (by decide) (by decide)).2⟩

/-- Claim C3 (code bug): `priv_compare_rtp_seq_lt` is claimed to equal the
sign-extended 16-bit difference `seq_diff` and to have the wrap-aware step
count as its magnitude.  At `a = 65530, b = 2` (a forward gap of 8 across
the 16-bit wrap, exactly the value gap accounting adds to `late_count`)
the code returns `65528` while the sign-extension gives `8`; at
`a = 0, b = 32768` even the signs disagree (`32768` vs `-32768`). -/
theorem C3_code_bug :
    priv_compare_rtp_seq_lt 65530 2 = 65528 ∧
    seq_diff 65530 2 = 8 ∧
    priv_compare_rtp_seq_lt 65530 2 ≠ seq_diff 65530 2 ∧
    priv_compare_rtp_seq_lt 0 32768 = 32768 ∧
    seq_diff 0 32768 = -32768 := by decide

/-- Claim C5 (code bug): with `latency_ms = 200` and a peer answer of
`min = max = 10^6` ns, the composite minimum is `10^6 + 200*10^6` ns as
claimed, but the composite maximum is `10^6 + 200*10^6*10^6` ns — the
element's latency converted to nanoseconds and then multiplied by
`GST_MSECOND` a second time — instead of the claimed `10^6 + 200*10^6`.
An unbounded (`-1`) peer maximum does remain unbounded. -/
theorem C5_code_bug :
    (gst_rtp_jitter_buffer_query_latency testState 1000000 1000000).2.1 =
      1000000 + 200 * 1000000 ∧
    (gst_rtp_jitter_buffer_query_latency testState 1000000 1000000).2.2 =
      1000000 + 200 * 1000000 * 1000000 ∧
    (gst_rtp_jitter_buffer_query_latency testState 1000000 1000000).2.2 ≠
      1000000 + 200 * 1000000 ∧
    (gst_rtp_jitter_buffer_query_latency testState 1000000
      18446744073709551615).2.2 = 18446744073709551615 := by decide

/-- A state with every resettable field away from its reset value, to
exhibit what `flush_stop` does. -/
def c6state : JBState :=
  { latency_ms := 200, drop_on_latency := true, ts_offset := 3, prev_ts_offset := 2,
    last_popped_seqnum := 7, next_seqnum := 8, eos := true,
    clock_rate := 8000, clock_base := 5, exttimestamp := 12345,
    srcresult := FlowReturn.wrongState, blocked := true,
    segment := SegmentModel.configured 1 1 0 10 0,
    clock_id := false, waiting_seqnum := 4294967295, peer_latency := 9,
    num_late := 1, num_duplicates := 2, jbuf := [pk 9 100] }

/-- Claim C6 counterexample: after `flush_stop` the extended-timestamp
state is the `-1` sentinel `2^64 - 1`, not `0` as the claim states. -/
theorem C6_counterexample :
    (gst_rtp_jitter_buffer_flush_stop c6state).exttimestamp =
      18446744073709551615 ∧
    (gst_rtp_jitter_buffer_flush_stop c6state).exttimestamp ≠ 0 := by decide

/-- Claim C6 (amended): after `flush_stop`, `srcresult = OK`, the segment
is the default TIME segment, `last_popped_seqnum = -1`, `next_seqnum = -1`,
`clock_rate = -1`, `eos = false`, and the extended-timestamp state is the
`-1` sentinel (`2^64 - 1`, not `0`); every other field — the properties,
the counters, the pending-wait state and the store — is untouched. -/
theorem C6_amended (s : JBState) :
    (gst_rtp_jitter_buffer_flush_stop s).srcresult = FlowReturn.ok ∧
    (gst_rtp_jitter_buffer_flush_stop s).segment = SegmentModel.defaultTime ∧
    (gst_rtp_jitter_buffer_flush_stop s).last_popped_seqnum = 4294967295 ∧
    (gst_rtp_jitter_buffer_flush_stop s).next_seqnum = 4294967295 ∧
    (gst_rtp_jitter_buffer_flush_stop s).clock_rate = -1 ∧
    (gst_rtp_jitter_buffer_flush_stop s).eos = false ∧
    (gst_rtp_jitter_buffer_flush_stop s).exttimestamp = 18446744073709551615 ∧
    (gst_rtp_jitter_buffer_flush_stop s).latency_ms = s.latency_ms ∧
    (gst_rtp_jitter_buffer_flush_stop s).drop_on_latency = s.drop_on_latency ∧
    (gst_rtp_jitter_buffer_flush_stop s).ts_offset = s.ts_offset ∧
    (gst_rtp_jitter_buffer_flush_stop s).prev_ts_offset = s.prev_ts_offset ∧
    (gst_rtp_jitter_buffer_flush_stop s).clock_base = s.clock_base ∧
    (gst_rtp_jitter_buffer_flush_stop s).blocked = s.blocked ∧
    (gst_rtp_jitter_buffer_flush_stop s).clock_id = s.clock_id ∧
    (gst_rtp_jitter_buffer_flush_stop s).waiting_seqnum = s.waiting_seqnum ∧
    (gst_rtp_jitter_buffer_flush_stop s).peer_latency = s.peer_latency ∧
    (gst_rtp_jitter_buffer_flush_stop s).num_late = s.num_late ∧
    (gst_rtp_jitter_buffer_flush_stop s).num_duplicates = s.num_duplicates ∧
    (gst_rtp_jitter_buffer_flush_stop s).jbuf = s.jbuf :=
  ⟨rfl, rfl, rfl, rfl, rfl, rfl, rfl, rfl, rfl, rfl, rfl, rfl, rfl, rfl, rfl,
   rfl, rfl, rfl, rfl⟩

lemma pushPath_fields (s : JBState) (b : RtpPacket) (n : Nat) :
    (pushPath s b n).1.clock_id = s.clock_id ∧
    (pushPath s b n).1.waiting_seqnum = s.waiting_seqnum ∧
    (pushPath s b n).1.last_popped_seqnum = n ∧
    (pushPath s b n).1.next_seqnum = (n + 1) % 65536 ∧
    (pushPath s b n).1.jbuf = s.jbuf ∧
    (pushPath s b n).1.srcresult = s.srcresult := by
  unfold pushPath
  by_cases G : s.next_seqnum ≠ 4294967295 ∧ s.next_seqnum ≠ n <;>
  by_cases R : ts_offset_rtp_of s.ts_offset s.clock_rate ≠ 0 <;>
  by_cases C : s.ts_offset ≠ s.prev_ts_offset <;>
  simp [G, R, C]

/-- A release state whose timestamp offset changed to 0 since the last
release (`prev_ts_offset = 5`, `ts_offset = 0`), next expected seq 7,
head packet seq 7 (no gap). -/
def c7cstate : JBState :=
  { testState with ts_offset := 0, prev_ts_offset := 5, next_seqnum := 7,
                   jbuf := [pk 7 100] }

/-- Claim C7 counterexample: `ts_offset_ns` changed since the previous
release (5 → 0), yet the next released packet carries NO discontinuity
flag: the change check lives inside the `ts_offset_rtp != 0` block, which
is skipped when the current offset converts to zero RTP ticks. -/
theorem C7_counterexample :
    c7cstate.ts_offset ≠ c7cstate.prev_ts_offset ∧
    (loopBody false ClockReturn.ok c7cstate).2 =
      LoopOutcome.pushed (pk 7 100) false ∧
    (loopBody false ClockReturn.ok c7cstate).1.prev_ts_offset =
      c7cstate.prev_ts_offset := by decide

/-- Claim C7 (amended): on every release the packet's RTP timestamp equals
`(rtp_ts + ts_offset_rtp) mod 2^32`, where `ts_offset_rtp` converts
`ts_offset_ns * clock_rate / 10^9` rounding toward zero with the sign
preserved via the magnitude; but the discontinuity flag from an offset
change is set only when `ts_offset_rtp != 0` (equivalently, the release is
marked discontinuous iff there is a seqnum gap, or the offset converts to
a nonzero tick count AND differs from the offset of the previous release);
`prev_ts_offset` is likewise updated only in that case. -/
theorem C7_amended (s : JBState) (b : RtpPacket) (seqnum : Nat)
    (hb : b.rtp_ts < 4294967296) :
    (pushPath s b seqnum).2.1.rtp_ts =
      (((b.rtp_ts : Int) + ts_offset_rtp_of s.ts_offset s.clock_rate) %
        4294967296).toNat ∧
    (pushPath s b seqnum).2.2 =
      (decide (s.next_seqnum ≠ 4294967295 ∧ s.next_seqnum ≠ seqnum) ||
       (decide (ts_offset_rtp_of s.ts_offset s.clock_rate ≠ 0) &&
        decide (s.ts_offset ≠ s.prev_ts_offset))) ∧
    (pushPath s b seqnum).1.prev_ts_offset =
      (if ts_offset_rtp_of s.ts_offset s.clock_rate ≠ 0 ∧ s.ts_offset ≠ s.prev_ts_offset
       then s.ts_offset else s.prev_ts_offset) := by
  unfold pushPath
  by_cases G : s.next_seqnum ≠ 4294967295 ∧ s.next_seqnum ≠ seqnum <;>
  by_cases R : ts_offset_rtp_of s.ts_offset s.clock_rate ≠ 0 <;>
  by_cases C : s.ts_offset ≠ s.prev_ts_offset <;>
  simp [G, R, C] <;> omega

/-- Concrete input for the C7 witness: offset `10^9` ns at clock rate 8000
converts to 8000 RTP ticks. -/
def c7wstate : JBState :=
  { testState with ts_offset := 1000000000, prev_ts_offset := 0 }

/-- Witness for C7_amended: the released timestamp is `100 + 8000`. -/
theorem C7_witness :
    (pk 5 100).rtp_ts < 4294967296 ∧
    (pushPath c7wstate (pk 5 100) 5).2.1.rtp_ts =
      ((((pk 5 100).rtp_ts : Int) +
          ts_offset_rtp_of c7wstate.ts_offset c7wstate.clock_rate) %
        4294967296).toNat ∧
    (pushPath c7wstate (pk 5 100) 5).2.1.rtp_ts = 8100 :=
  ⟨by decide, (C7_amended c7wstate (pk 5 100) 5 (by decide)).1, by decide⟩

/-- The operation sequence of the C8 counterexample: seq 400 is pushed,
pushed again (a resident duplicate), released, pushed again after its
release, and released again. -/
def c8ops : List JBOp :=
  [JBOp.push (pk 400 1000), JBOp.push (pk 400 1000),
   JBOp.pop false ClockReturn.ok,
   JBOp.push (pk 400 1000), JBOp.pop false ClockReturn.ok]

/-- A drop-on-latency state (threshold 1 tick) holding seqs 10 and 11. -/
def c8evstate : JBState :=
  { testState with latency_ms := 1, drop_on_latency := true, clock_rate := 1000,
                   jbuf := [pk 10 0, pk 11 5] }

/-- Claim C8 counterexample.  First: in the trace `c8ops`, the second push
of seq 400 is a resident duplicate (duplicate_count becomes 1), yet seq 400
is released downstream TWICE — a copy arriving after the release passes the
strict too-late check and is re-enqueued, so "released at most once
overall" fails.  Second: with drop-on-latency active, a push whose seq 10
has a resident entry evicts that very entry, inserts the new copy, and
leaves duplicate_count unchanged — "duplicate_count is incremented" and
"the store is left unchanged" both fail. -/
theorem C8_counterexample :
    ((runOps testState c8ops).2.map RtpPacket.seq = [400, 400]) ∧
    (runOps testState (c8ops.take 2)).1.num_duplicates = 1 ∧
    pk 10 0 ∈ c8evstate.jbuf ∧ (pk 10 7).seq = (pk 10 0).seq ∧
    (chain none c8evstate (pk 10 7)).ret = FlowReturn.ok ∧
    (chain none c8evstate (pk 10 7)).state.num_duplicates =
      c8evstate.num_duplicates ∧
    (chain none c8evstate (pk 10 7)).state.jbuf ≠ c8evstate.jbuf := by decide

/-- Claim C8 (amended): for every push of a packet whose seq still has a
resident entry after the drop-on-latency step (in particular whenever
drop-on-latency is off), push returns OK, `duplicate_count` is incremented
by exactly one, and the store and every other field keep their
post-eviction values; no wait is unscheduled.  The seq is released at most
once while resident, but a fresh copy arriving after its release can be
enqueued and released again. -/
theorem C8_amended (s : JBState) (p : RtpPacket)
    (h1 : s.clock_rate ≠ -1) (h2 : s.srcresult = FlowReturn.ok) (h3 : s.eos = false)
    (h4 : tooLateCheck s p.seq = false)
    (h5 : storeInsert (chainDrop s).jbuf p = none) :
    chain none s p =
      ⟨{ chainDrop s with
           num_duplicates := (s.num_duplicates + 1) % 18446744073709551616 },
        FlowReturn.ok, false⟩ := by
  simp [chain, h1, h2, h3, h4, h5, chainDrop_num_duplicates]

/-- Concrete input for the C8 witness: seq 20 resident, duplicate pushed. -/
def c8wstate : JBState := { testState with jbuf := [pk 20 50] }

/-- Witness for C8_amended: pushing a second packet with seq 20. -/
theorem C8_witness :
    storeInsert (chainDrop c8wstate).jbuf (pk 20 60) = none ∧
    chain none c8wstate (pk 20 60) =
      ⟨{ chainDrop c8wstate with
           num_duplicates := (c8wstate.num_duplicates + 1) % 18446744073709551616 },
        FlowReturn.ok, false⟩ :=
  ⟨by decide,
   C8_amended c8wstate (pk 20 60) (by decide) rfl rfl (by decide) (by decide)⟩

/-- Claim C9 (confirmed): when the element has no pipeline clock and the
egress worker pops a packet whose seq differs from `next_expected_seq`
(including the first-ever packet, `next_expected_seq = -1`), the packet is
released immediately: no `active_deadline` is recorded (`clock_id` and
`waiting_seqnum` are untouched), no clock wait occurs (the outcome does not
depend on the clock-wait result), and `last_popped_seq` / `next_expected_seq`
are updated exactly as for a normal release. -/
theorem C9_ok (s : JBState) (p : RtpPacket) (rest : List RtpPacket) (wr : ClockReturn)
    (h1 : s.srcresult = FlowReturn.ok) (h2 : s.blocked = false)
    (h3 : s.jbuf = p :: rest)
    (h4 : s.next_seqnum = 4294967295 ∨ s.next_seqnum ≠ p.seq) :
    (loopBody false wr s).1.clock_id = s.clock_id ∧
    (loopBody false wr s).1.waiting_seqnum = s.waiting_seqnum ∧
    (loopBody false wr s).1.last_popped_seqnum = p.seq ∧
    (loopBody false wr s).1.next_seqnum = (p.seq + 1) % 65536 ∧
    (∃ b d, (loopBody false wr s).2 = LoopOutcome.pushed b d) ∧
    loopBody false wr s = loopBody false ClockReturn.ok s := by
  unfold loopBody
  rw [h3]
  rcases h4 with h4 | h4 <;>
  by_cases B : s.clock_base = -1 <;>
  simp [h1, h2, h4, B, pushPath_fields]

/-- Concrete input for the C9 witness: one resident packet, first pop. -/
def c9wstate : JBState := { testState with jbuf := [pk 42 500] }

/-- Witness for C9_ok at the first-ever packet (next_expected_seq = -1). -/
theorem C9_witness :
    c9wstate.jbuf = [pk 42 500] ∧
    (c9wstate.next_seqnum = 4294967295 ∨ c9wstate.next_seqnum ≠ (pk 42 500).seq) ∧
    ((loopBody false ClockReturn.unscheduled c9wstate).1.clock_id =
        c9wstate.clock_id ∧
     (loopBody false ClockReturn.unscheduled c9wstate).1.waiting_seqnum =
        c9wstate.waiting_seqnum ∧
     (loopBody false ClockReturn.unscheduled c9wstate).1.last_popped_seqnum =
        (pk 42 500).seq ∧
     (loopBody false ClockReturn.unscheduled c9wstate).1.next_seqnum =
        ((pk 42 500).seq + 1) % 65536 ∧
     (∃ b d, (loopBody false ClockReturn.unscheduled c9wstate).2 =
        LoopOutcome.pushed b d) ∧
     loopBody false ClockReturn.unscheduled c9wstate =
       loopBody false ClockReturn.ok c9wstate) :=
  ⟨rfl, by decide,
   C9_ok c9wstate (pk 42 500) [] ClockReturn.unscheduled rfl rfl rfl (by decide)⟩

/-- Claim C10 (confirmed): the drop-on-latency eviction inside push removes
exactly the store head and modifies no other coordinator field:
`last_popped_seq`, `next_expected_seq`, `late_count` and `duplicate_count`
keep their values, and the too-late classification of every possible later
seqnum is unchanged by the eviction. -/
theorem C10_ok (s : JBState)
    (h1 : s.latency_ms ≠ 0) (h2 : s.drop_on_latency = true)
    (h3 : storeTsSpan s.jbuf ≥
       gst_util_uint64_scale_int s.latency_ms s.clock_rate.toNat 1000) :
    (chainDrop s).jbuf = s.jbuf.tail ∧
    (chainDrop s).last_popped_seqnum = s.last_popped_seqnum ∧
    (chainDrop s).next_seqnum = s.next_seqnum ∧
    (chainDrop s).num_late = s.num_late ∧
    (chainDrop s).num_duplicates = s.num_duplicates ∧
    ∀ q : Nat, tooLateCheck (chainDrop s) q = tooLateCheck s q := by
  refine ⟨?_, chainDrop_last_popped_seqnum s, chainDrop_next_seqnum s,
    chainDrop_num_late s, chainDrop_num_duplicates s, ?_⟩
  · rw [chainDrop_jbuf]; simp [h1, h2, h3]
  · intro q; simp [tooLateCheck, chainDrop_last_popped_seqnum]

/-- Concrete input for the C10 witness: span 300 at threshold 1. -/
def c10wstate : JBState :=
  { testState with latency_ms := 1, drop_on_latency := true, clock_rate := 1000,
                   last_popped_seqnum := 0, next_seqnum := 1,
                   jbuf := [pk 1 0, pk 2 300] }

/-- Witness for C10_ok: the eviction drops seq 1 and nothing else. -/
theorem C10_witness :
    c10wstate.latency_ms ≠ 0 ∧ c10wstate.drop_on_latency = true ∧
    storeTsSpan c10wstate.jbuf ≥
      gst_util_uint64_scale_int c10wstate.latency_ms c10wstate.clock_rate.toNat 1000 ∧
    ((chainDrop c10wstate).jbuf = c10wstate.jbuf.tail ∧
     (chainDrop c10wstate).last_popped_seqnum = c10wstate.last_popped_seqnum ∧
     (chainDrop c10wstate).next_seqnum = c10wstate.next_seqnum ∧
     (chainDrop c10wstate).num_late = c10wstate.num_late ∧
     (chainDrop c10wstate).num_duplicates = c10wstate.num_duplicates ∧
     ∀ q : Nat, tooLateCheck (chainDrop c10wstate) q = tooLateCheck c10wstate q) :=
  ⟨by decide, by decide, by decide,
   C10_ok c10wstate (by decide) (by decide) (by decide)⟩

end RtpJitterBuffer
